import Mathlib

/-!
Verification of `src/testsetup/oauth_validator_module/dummy_validator.c`,
a dummy OAuth validator module loaded by a PostgreSQL host process.

Shallow embedding: C strings live in a heap modelled as a list of
allocated string contents; a pointer is a 1-based index into that list and
the null pointer is 0.  Program state carries the heap, the server log and
an abstract `other` component standing for all program state the module
does not touch.  `validate` is embedded as a state transformer returning
`Option` (`none` models a faulting dereference of an invalid pointer).
-/

namespace DummyValidator

/-- The allocation heap: entry `i` holds the contents of the C string at
pointer `i + 1`.  Pointer `0` is the null pointer and is never allocated. -/
abbrev Heap := List String

/-- Read the C string at pointer `p`: fails on the null pointer and on
pointers past the end of the allocated region. -/
def Heap.deref (h : Heap) (p : Nat) : Option String :=
  if p = 0 then none else h[p - 1]?

/-- `pstrdup` (from the host's memory-context allocator): allocate a fresh
string holding a copy of `s`, returning the new pointer and the new heap.
The fresh pointer is `h.length + 1`, one past the current allocations. -/
def pstrdup (h : Heap) (s : String) : Nat × Heap :=
  (h.length + 1, h ++ [s])

/-- Severity levels of `elog` used by the host's logging facility (only
`LOG` is used by this module). -/
inductive LogLevel where
  | LOG
  | WARNING
  | ERROR
deriving DecidableEq

/-- One record emitted through `elog`. -/
structure LogEntry where
  level : LogLevel
  message : String
deriving DecidableEq

/-- The global program state visible to the module: the allocation heap,
the server log, and an `other` component standing for every other piece of
program state (which the module must leave unchanged). -/
structure PgState where
  heap : Heap
  log : List LogEntry
  other : Nat
deriving DecidableEq

/-- `elog(level, msg)`: append one record to the server log. -/
def elog (st : PgState) (level : LogLevel) (msg : String) : PgState :=
  { st with log := st.log ++ [LogEntry.mk level msg] }

/-- Modelled from the spec: the host header `libpq/oauth.h` (not part of
this repository's sources) defines `ValidatorModuleState` as host-owned
opaque per-connection state; the module never inspects it, so it is
modelled as an abstract cell. -/
structure ValidatorModuleState where
  private_data : Nat
deriving DecidableEq

/-- Modelled from the spec: the host header `libpq/oauth.h` defines
`ValidatorModuleResult` with the `authorized` flag and the `authn_id`
string written by the module; any further host-defined contents of the
result structure are modelled abstractly by the `rest` field. -/
structure ValidatorModuleResult where
  authorized : Bool
  authn_id : Nat
  rest : Nat
deriving DecidableEq

/-- The message built by the `elog` call in `validate`:
`"accept token '%s' for role '%s'"` with both strings substituted. -/
def elogMsg (token role : String) : String :=
  "accept token \x27" ++ token ++ "\x27 for role \x27" ++ role ++ "\x27"

/-- The `validate` hook of `dummy_validator.c`:

    elog(LOG, "accept token '%s' for role '%s'", token, role);
    char *authn_id = pstrdup(token);
    result->authn_id = authn_id;
    result->authorized = true;
    return true;

`token` and `role` are pointers; reading either fails (`none`) when the
pointer is null or unallocated, since the C code dereferences both without
any check.  On success the call returns the C return value together with
the updated program state, the (untouched) module state and the updated
result structure. -/
def validate (st : PgState) (state : ValidatorModuleState) (token role : Nat)
    (result : ValidatorModuleResult) :
    Option (Bool × PgState × ValidatorModuleState × ValidatorModuleResult) :=
  match st.heap.deref token, st.heap.deref role with
  | some tok, some rol =>
    let st := elog st LogLevel.LOG (elogMsg tok rol)
    let (authn_id, heap) := pstrdup st.heap tok
    let st := { st with heap := heap }
    let result := { result with authn_id := authn_id }
    let result := { result with authorized := true }
    some (true, st, state, result)
  | _, _ => none

/-- Modelled from the spec: `startup_cb` hooks have the host-defined
signature taking the module state; the value is only needed to type the
callback table. -/
def ValidatorStartupCB := PgState → ValidatorModuleState → PgState × ValidatorModuleState

/-- Modelled from the spec: `shutdown_cb` hooks share the startup
signature. -/
def ValidatorShutdownCB := PgState → ValidatorModuleState → PgState × ValidatorModuleState

/-- The type of `validate_cb` hooks, matching `validate` above. -/
def ValidatorValidateCB := PgState → ValidatorModuleState → Nat → Nat →
    ValidatorModuleResult → Option (Bool × PgState × ValidatorModuleState × ValidatorModuleResult)

/-- Modelled from the spec: the host-defined magic number from
`libpq/oauth.h` that the host checks against the module's callback table. -/
def PG_OAUTH_VALIDATOR_MAGIC : Nat := 0x20250220

/-- Modelled from the spec: the callback table layout from `libpq/oauth.h`:
a magic number and three hook slots; a null function pointer (a hook the
module does not provide) is modelled as `none`. -/
structure OAuthValidatorCallbacks where
  magic : Nat
  startup_cb : Option ValidatorStartupCB
  shutdown_cb : Option ValidatorShutdownCB
  validate_cb : Option ValidatorValidateCB

/-- The constant callback table of `dummy_validator.c`:

    const OAuthValidatorCallbacks callbacks = {
        .magic = PG_OAUTH_VALIDATOR_MAGIC,
        .startup_cb = NULL,
        .shutdown_cb = NULL,
        .validate_cb = validate,
    };
-/
def callbacks : OAuthValidatorCallbacks :=
  { magic := PG_OAUTH_VALIDATOR_MAGIC
    startup_cb := none
    shutdown_cb := none
    validate_cb := some validate }

/-- The module's init entry point:

    const OAuthValidatorCallbacks *_PG_oauth_validator_module_init() {
      return &callbacks;
    }

It reads and writes nothing, so its embedding passes the program state
through unchanged and yields the constant table. -/
def _PG_oauth_validator_module_init (st : PgState) : PgState × OAuthValidatorCallbacks :=
  (st, callbacks)

/-! Concrete fixtures used by the witness theorems: a heap holding one
token string (pointer 1) and one role string (pointer 2). -/

/-- A concrete pre-state for witnesses. -/
def exSt : PgState :=
  { heap := ["sometoken", "somerole"], log := [], other := 42 }

/-- A concrete module state for witnesses. -/
def exState : ValidatorModuleState := { private_data := 7 }

/-- A second, different module state, for the frame witness. -/
def exStateAlt : ValidatorModuleState := { private_data := 9 }

/-- A concrete, not-yet-written result structure for witnesses. -/
def exRes : ValidatorModuleResult := { authorized := false, authn_id := 0, rest := 5 }

/-- The program state `validate` produces from the fixtures. -/
def exOutSt : PgState :=
  { heap := ["sometoken", "somerole", "sometoken"],
    log := [LogEntry.mk LogLevel.LOG (elogMsg "sometoken" "somerole")],
    other := 42 }

/-- The result structure `validate` produces from the fixtures. -/
def exOutRes : ValidatorModuleResult := { authorized := true, authn_id := 3, rest := 5 }

/-! Helper lemmas about the heap and about a successful `validate` call. -/

/-- A valid pointer is nonzero and within the allocated region. -/
theorem deref_bounds (h : Heap) (p : Nat) (s : String)
    (hp : Heap.deref h p = some s) : p ≠ 0 ∧ p - 1 < h.length := by
  unfold Heap.deref at hp
  by_cases h0 : p = 0
  · rw [if_pos h0] at hp
    cases hp
  · rw [if_neg h0] at hp
    refine ⟨h0, ?_⟩
    by_contra hlen
    push_neg at hlen
    rw [List.getElem?_eq_none hlen] at hp
    cases hp

/-- Reading a freshly `pstrdup`ed pointer yields the duplicated contents. -/
theorem deref_fresh (h : Heap) (s : String) :
    Heap.deref (h ++ [s]) (h.length + 1) = some s := by
  simp [Heap.deref, List.getElem?_concat_length]

/-- A `pstrdup` allocation never changes existing heap entries. -/
theorem deref_append (h : Heap) (s : String) (p : Nat) (c : String)
    (hp : Heap.deref h p = some c) : Heap.deref (h ++ [s]) p = some c := by
  obtain ⟨h0, hlt⟩ := deref_bounds h p c hp
  unfold Heap.deref at hp ⊢
  rw [if_neg h0] at hp ⊢
  rw [List.getElem?_append_left hlt]
  exact hp

/-- Exact characterisation of a non-faulting `validate` call: given the
contents of the token and role strings, the call succeeds, logs once,
allocates one copy of the token, and fills in the result structure. -/
theorem validate_success (st : PgState) (s : ValidatorModuleState) (t r : Nat)
    (res : ValidatorModuleResult) (tokStr rolStr : String)
    (htok : st.heap.deref t = some tokStr) (hrol : st.heap.deref r = some rolStr) :
    validate st s t r res = some (true,
      { heap := st.heap ++ [tokStr],
        log := st.log ++ [LogEntry.mk LogLevel.LOG (elogMsg tokStr rolStr)],
        other := st.other },
      s,
      { authorized := true, authn_id := st.heap.length + 1, rest := res.rest }) := by
  unfold validate
  rw [htok, hrol]
  rfl

/-- `validate` produces a value exactly when both its string pointers can
be dereferenced. -/
theorem validate_isSome_eq (st : PgState) (s : ValidatorModuleState) (t r : Nat)
    (res : ValidatorModuleResult) :
    (validate st s t r res).isSome =
      ((st.heap.deref t).isSome && (st.heap.deref r).isSome) := by
  unfold validate
  cases st.heap.deref t <;> cases st.heap.deref r <;> rfl

/-- A successful `validate` call determines the string contents of its
token and role pointers. -/
theorem validate_some_deref (st : PgState) (s : ValidatorModuleState) (t r : Nat)
    (res : ValidatorModuleResult)
    (out : Bool × PgState × ValidatorModuleState × ValidatorModuleResult)
    (h : validate st s t r res = some out) :
    ∃ tokStr rolStr, st.heap.deref t = some tokStr ∧ st.heap.deref r = some rolStr := by
  have hsome : ((st.heap.deref t).isSome && (st.heap.deref r).isSome) = true := by
    rw [← validate_isSome_eq st s t r res, h]
    rfl
  rw [Bool.and_eq_true] at hsome
  obtain ⟨tokStr, htok⟩ := Option.isSome_iff_exists.1 hsome.1
  obtain ⟨rolStr, hrol⟩ := Option.isSome_iff_exists.1 hsome.2
  exact ⟨tokStr, rolStr, htok, hrol⟩

/-- Claim C1: for every token and role string presented by the host,
`validate` reports success: it returns the boolean `true`, and every value
it can ever return carries `true`, never a failure indication. -/
theorem validate_always_accepts (st : PgState) (s : ValidatorModuleState)
    (t r : Nat) (res : ValidatorModuleResult) (tokStr rolStr : String)
    (htok : st.heap.deref t = some tokStr) (hrol : st.heap.deref r = some rolStr) :
    (∃ st2 res2, validate st s t r res = some (true, st2, s, res2)) ∧
      ∀ out, validate st s t r res = some out → out.1 = true := by
  refine ⟨⟨_, _, validate_success st s t r res tokStr rolStr htok hrol⟩, ?_⟩
  intro out hout
  rw [validate_success st s t r res tokStr rolStr htok hrol] at hout
  simp only [Option.some.injEq] at hout
  subst hout
  rfl

/-- Witness for C1 at a concrete state, token and role. -/
theorem validate_always_accepts_witness :
    exSt.heap.deref 1 = some "sometoken" ∧ exSt.heap.deref 2 = some "somerole" ∧
      ((∃ st2 res2, validate exSt exState 1 2 exRes = some (true, st2, exState, res2)) ∧
        ∀ out, validate exSt exState 1 2 exRes = some out → out.1 = true) :=
  ⟨by decide, by decide,
    validate_always_accepts exSt exState 1 2 exRes "sometoken" "somerole"
      (by decide) (by decide)⟩

/-- Claim C2: `validate` sets `authn_id` to a newly allocated string whose
contents equal the input token character for character, at a pointer
distinct from the token pointer, and this single allocation is the only
string duplication (the heap grows by exactly that one copy), which is
handed to the caller through the result structure. -/
theorem validate_authn_id_fresh_copy (st : PgState) (s : ValidatorModuleState)
    (t r : Nat) (res : ValidatorModuleResult) (tokStr rolStr : String)
    (htok : st.heap.deref t = some tokStr) (hrol : st.heap.deref r = some rolStr) :
    ∃ st2 res2, validate st s t r res = some (true, st2, s, res2) ∧
      st2.heap.deref res2.authn_id = some tokStr ∧
      res2.authn_id ≠ t ∧
      st2.heap = st.heap ++ [tokStr] := by
  refine ⟨_, _, validate_success st s t r res tokStr rolStr htok hrol, ?_, ?_, rfl⟩
  · exact deref_fresh st.heap tokStr
  · obtain ⟨h0, hlt⟩ := deref_bounds st.heap t tokStr htok
    show List.length st.heap + 1 ≠ t
    omega

/-- Witness for C2 at a concrete state, token and role. -/
theorem validate_authn_id_fresh_copy_witness :
    exSt.heap.deref 1 = some "sometoken" ∧ exSt.heap.deref 2 = some "somerole" ∧
      (∃ st2 res2, validate exSt exState 1 2 exRes = some (true, st2, exState, res2) ∧
        st2.heap.deref res2.authn_id = some "sometoken" ∧
        res2.authn_id ≠ 1 ∧
        st2.heap = exSt.heap ++ ["sometoken"]) :=
  ⟨by decide, by decide,
    validate_authn_id_fresh_copy exSt exState 1 2 exRes "sometoken" "somerole"
      (by decide) (by decide)⟩

/-- Claim C3: every call to `validate` that returns sets the result
structure's `authorized` field to `true`. -/
theorem validate_sets_authorized (st : PgState) (s : ValidatorModuleState)
    (t r : Nat) (res : ValidatorModuleResult) (b : Bool) (st2 : PgState)
    (s2 : ValidatorModuleState) (res2 : ValidatorModuleResult)
    (h : validate st s t r res = some (b, st2, s2, res2)) :
    res2.authorized = true := by
  obtain ⟨tokStr, rolStr, htok, hrol⟩ :=
    validate_some_deref st s t r res (b, st2, s2, res2) h
  rw [validate_success st s t r res tokStr rolStr htok hrol] at h
  simp only [Option.some.injEq, Prod.mk.injEq] at h
  obtain ⟨hb, hst, hs, hres⟩ := h
  subst hres
  rfl

/-- Witness for C3 at a concrete call. -/
theorem validate_sets_authorized_witness :
    validate exSt exState 1 2 exRes = some (true, exOutSt, exState, exOutRes) ∧
      exOutRes.authorized = true :=
  ⟨by decide,
    validate_sets_authorized exSt exState 1 2 exRes true exOutSt exState exOutRes
      (by decide)⟩

/-- Claim C4 counterexample: the callback table does not carry an
implementation for each of the three hooks — the startup and shutdown
slots hold null pointers. -/
theorem callbacks_not_all_hooks_implemented :
    ¬ (callbacks.startup_cb.isSome = true ∧ callbacks.shutdown_cb.isSome = true ∧
        callbacks.validate_cb.isSome = true) := by
  intro hall
  exact Bool.false_ne_true hall.1

/-- Claim C4 (amended): the callback table carries an implementation for
the validate hook only; the startup and shutdown slots are set to NULL. -/
theorem callbacks_validate_only :
    callbacks.validate_cb = some validate ∧ callbacks.startup_cb = none ∧
      callbacks.shutdown_cb = none :=
  ⟨rfl, rfl, rfl⟩

/-- Claim C5: the callback table always carries the host-defined magic
number in its `magic` field; the table is a constant, so this holds at
every point after module load. -/
theorem callbacks_magic_ok : callbacks.magic = PG_OAUTH_VALIDATOR_MAGIC := rfl

/-- Claim C6: every call to the init entry point returns the module's
constant callback table, the same table on every call, with no side
effects on the program state. -/
theorem init_returns_constant_table :
    ∀ st stAlt : PgState, _PG_oauth_validator_module_init st = (st, callbacks) ∧
      (_PG_oauth_validator_module_init st).2 = (_PG_oauth_validator_module_init stAlt).2 :=
  fun _ _ => ⟨rfl, rfl⟩

/-- Claim C7: every (non-faulting) call to `validate` appends exactly one
record to the log, at LOG level, whose message contains the presented
token and the presented role. -/
theorem validate_logs_token_and_role (st : PgState) (s : ValidatorModuleState)
    (t r : Nat) (res : ValidatorModuleResult) (tokStr rolStr : String)
    (htok : st.heap.deref t = some tokStr) (hrol : st.heap.deref r = some rolStr) :
    ∃ st2 res2, validate st s t r res = some (true, st2, s, res2) ∧
      st2.log = st.log ++ [LogEntry.mk LogLevel.LOG (elogMsg tokStr rolStr)] ∧
      List.IsInfix tokStr.data (elogMsg tokStr rolStr).data ∧
      List.IsInfix rolStr.data (elogMsg tokStr rolStr).data := by
  refine ⟨_, _, validate_success st s t r res tokStr rolStr htok hrol, rfl, ?_, ?_⟩
  · exact ⟨"accept token \x27".data,
      ("\x27 for role \x27" ++ rolStr ++ "\x27").data,
      by simp [elogMsg]⟩
  · exact ⟨("accept token \x27" ++ tokStr ++ "\x27 for role \x27").data,
      "\x27".data,
      by simp [elogMsg]⟩

/-- Witness for C7 at a concrete call. -/
theorem validate_logs_token_and_role_witness :
    exSt.heap.deref 1 = some "sometoken" ∧ exSt.heap.deref 2 = some "somerole" ∧
      (∃ st2 res2, validate exSt exState 1 2 exRes = some (true, st2, exState, res2) ∧
        st2.log = exSt.log ++ [LogEntry.mk LogLevel.LOG (elogMsg "sometoken" "somerole")] ∧
        List.IsInfix "sometoken".data (elogMsg "sometoken" "somerole").data ∧
        List.IsInfix "somerole".data (elogMsg "sometoken" "somerole").data) :=
  ⟨by decide, by decide,
    validate_logs_token_and_role exSt exState 1 2 exRes "sometoken" "somerole"
      (by decide) (by decide)⟩

/-- Claim C8: `validate` never reads or writes its module-state argument
(replacing it changes nothing but the passed-through value), and of the
result structure it writes only `authn_id` and `authorized`: the result's
other contents and all other program state are unchanged. -/
theorem validate_frame (st : PgState) (s sAlt : ValidatorModuleState) (t r : Nat)
    (res : ValidatorModuleResult) (b : Bool) (st2 : PgState)
    (s2 : ValidatorModuleState) (res2 : ValidatorModuleResult)
    (h : validate st s t r res = some (b, st2, s2, res2)) :
    s2 = s ∧ st2.other = st.other ∧ res2.rest = res.rest ∧
      validate st sAlt t r res = some (b, st2, sAlt, res2) := by
  obtain ⟨tokStr, rolStr, htok, hrol⟩ :=
    validate_some_deref st s t r res (b, st2, s2, res2) h
  rw [validate_success st s t r res tokStr rolStr htok hrol] at h
  simp only [Option.some.injEq, Prod.mk.injEq] at h
  obtain ⟨hb, hst, hs, hres⟩ := h
  subst hb
  subst hst
  subst hs
  subst hres
  exact ⟨rfl, rfl, rfl, validate_success st sAlt t r res tokStr rolStr htok hrol⟩

/-- Witness for C8 at a concrete call, with two distinct module states. -/
theorem validate_frame_witness :
    validate exSt exState 1 2 exRes = some (true, exOutSt, exState, exOutRes) ∧
      (exState = exState ∧ exOutSt.other = exSt.other ∧ exOutRes.rest = exRes.rest ∧
        validate exSt exStateAlt 1 2 exRes = some (true, exOutSt, exStateAlt, exOutRes)) :=
  ⟨by decide,
    validate_frame exSt exState exStateAlt 1 2 exRes true exOutSt exState exOutRes
      (by decide)⟩

/-- Claim C9: the boolean `validate` returns always equals the value it
stored in the result's `authorized` field, and both are `true`. -/
theorem validate_return_agrees_with_authorized (st : PgState)
    (s : ValidatorModuleState) (t r : Nat) (res : ValidatorModuleResult) (b : Bool)
    (st2 : PgState) (s2 : ValidatorModuleState) (res2 : ValidatorModuleResult)
    (h : validate st s t r res = some (b, st2, s2, res2)) :
    b = res2.authorized ∧ b = true := by
  obtain ⟨tokStr, rolStr, htok, hrol⟩ :=
    validate_some_deref st s t r res (b, st2, s2, res2) h
  rw [validate_success st s t r res tokStr rolStr htok hrol] at h
  simp only [Option.some.injEq, Prod.mk.injEq] at h
  obtain ⟨hb, hst, hs, hres⟩ := h
  subst hb
  subst hres
  exact ⟨rfl, rfl⟩

/-- Witness for C9 at a concrete call. -/
theorem validate_return_agrees_with_authorized_witness :
    validate exSt exState 1 2 exRes = some (true, exOutSt, exState, exOutRes) ∧
      (true = exOutRes.authorized ∧ true = true) :=
  ⟨by decide,
    validate_return_agrees_with_authorized exSt exState 1 2 exRes true exOutSt
      exState exOutRes (by decide)⟩

/-- Claim C10: `validate` dereferences its token and role pointers
unconditionally, with no null check: a call faults exactly when one of the
two pointers fails to dereference, and under the precondition that both
are live strings no dereference in `validate` can fault. -/
theorem validate_faults_iff_bad_pointer (st : PgState) (s : ValidatorModuleState)
    (t r : Nat) (res : ValidatorModuleResult) :
    (validate st s t r res).isSome =
      ((st.heap.deref t).isSome && (st.heap.deref r).isSome) :=
  validate_isSome_eq st s t r res

end DummyValidator
